import Mathlib

/-!
# Verification of the Tello dashboard core (WebSocket telemetry channel and command dispatcher)

Shallow embedding of the two in-scope components of the repository:

* `useWebSocket` (hooks/useWebSocket.ts): four `useState` slots
  (`ws`, `isConnected`, `droneState`, `videoFrame`), a `connect` callback that
  opens a socket and installs `onopen`/`onmessage`/`onclose` handlers, a
  `disconnect` callback, and a `useEffect` cleanup keyed on `[ws]` that closes
  the previous socket whenever the handle changes.
* `useDroneCommands` (hooks/useDroneCommands.ts): `fetchWithBody` issuing a
  single POST and throwing `Error('Command failed')` on a non-ok response, and
  the nine command wrappers.

JavaScript values coming out of `JSON.parse` are modelled by the `Json`
inductive; the JavaScript distinction between `null` and `undefined` is
collapsed to `Option.none` wherever a value is *stored* (both render as "no
value" to consumers), but property access distinguishes them where it matters:
reading a property of `null` or `undefined` throws a TypeError, while reading a
missing property of an object (or any property of a non-null primitive) yields
`undefined`. Numbers are modelled as `Int` (every number appearing in the
dashboard's messages and commands is integral).
-/

namespace Tello

/-- A JavaScript value as produced by `JSON.parse`. Object fields are the
parsed object's properties (keys unique, as `JSON.parse` keeps one binding
per key). -/
inductive Json where
  | null
  | bool (b : Bool)
  | num (n : Int)
  | str (s : String)
  | arr (elems : List Json)
  | obj (fields : List (String × Json))

/-- Look a key up in an object's field list. -/
def lookupField : List (String × Json) → String → Option Json
  | [], _ => none
  | (k, v) :: rest, key => if k = key then some v else lookupField rest key

/-- Pure view of JavaScript property access `j.key`: the field's value for an
object that has it, `undefined` (here `none`) otherwise. -/
def getField : Json → String → Option Json
  | .obj fields, key => lookupField fields key
  | _, _ => none

/-- JavaScript property access `j.key` as executed: reading a property of
`null` throws a TypeError; reading a property of an object looks the field up;
reading a property of any other value (number, string, bool, array) yields
`undefined`. -/
def jsAccess : Json → String → Except Unit (Option Json)
  | .null, _ => .error ()
  | .obj fields, key => .ok (lookupField fields key)
  | _, _ => .ok none

/-- Property access on a possibly-`undefined` value: `undefined.key` throws a
TypeError. -/
def jsAccessOpt : Option Json → String → Except Unit (Option Json)
  | none, _ => .error ()
  | some j, key => jsAccess j key

/-- An inbound WebSocket message: either text that `JSON.parse` rejects
(`invalid`), or the parsed value. -/
inductive InboundMessage where
  | invalid
  | valid (j : Json)

/-- The four `useState` slots of `useWebSocket`. The socket handle is a
numeric identifier into the socket world of the lifecycle model below. -/
structure HookState where
  ws : Option Nat
  isConnected : Bool
  droneState : Option Json
  videoFrame : Option Json

/-- Initial hook state: `useState<WebSocket | null>(null)`, `useState(false)`,
`useState<DroneState | null>(null)`, `useState<string | null>(null)`. -/
def initialHookState : HookState :=
  { ws := none, isConnected := false, droneState := none, videoFrame := none }

/-- The body of `websocket.onmessage` (hooks/useWebSocket.ts, lines 53-60):

```
const data = JSON.parse(event.data);
if (data.type === 'state_update') {
  setDroneState(data.data);
} else if (data.type === 'video_frame') {
  setVideoFrame(data.data.frame);
}
```

`JSON.parse` throws on invalid text; `data.type` throws when `data` is
`null`; `data.data.frame` throws when `data.data` is missing or `null`. An
`Except.error` models an exception escaping the handler. -/
def onmessageBody (st : HookState) (msg : InboundMessage) : Except Unit HookState :=
  match msg with
  | .invalid => .error ()
  | .valid j =>
    match jsAccess j "type" with
    | .error e => .error e
    | .ok ty =>
      match ty with
      | some (.str s) =>
        if s = "state_update" then
          match jsAccess j "data" with
          | .error e => .error e
          | .ok d => .ok { st with droneState := d }
        else if s = "video_frame" then
          match jsAccess j "data" with
          | .error e => .error e
          | .ok d =>
            match jsAccessOpt d "frame" with
            | .error e => .error e
            | .ok f => .ok { st with videoFrame := f }
        else .ok st
      | _ => .ok st

/-- One inbound message delivered by the event loop: an exception escaping the
`onmessage` handler is reported by the host and discarded — the socket stays
open and no state update took place (no `setX` call precedes a throwing
expression in the handler body). -/
def handleMessage (st : HookState) (msg : InboundMessage) : HookState :=
  match onmessageBody st msg with
  | .ok st' => st'
  | .error _ => st

/-- Deliver a sequence of inbound messages in order. -/
def processMessages (st : HookState) (msgs : List InboundMessage) : HookState :=
  msgs.foldl handleMessage st

/-- The `type` tag of a parsed message, when it is a string
(`data.type === '...'` can only succeed for a string tag, which requires
`data` to be an object). -/
def typeTag (j : Json) : Option String :=
  match getField j "type" with
  | some (.str s) => some s
  | _ => none

/-- A message the handler's first branch recognizes: valid JSON whose `type`
tag is the string `state_update`. -/
def isStateUpdateMsg : InboundMessage → Bool
  | .invalid => false
  | .valid j => if typeTag j = some "state_update" then true else false

/-- A message whose `type` tag is the string `video_frame`. -/
def isVideoFrameMsg : InboundMessage → Bool
  | .invalid => false
  | .valid j => if typeTag j = some "video_frame" then true else false

/-- A `video_frame` message that actually updates the frame slot: its `data`
payload must be present and non-null, otherwise `data.data.frame` throws
before `setVideoFrame` runs. -/
def isEffVideoMsg : InboundMessage → Bool
  | .invalid => false
  | .valid j =>
    if typeTag j = some "video_frame" then
      match getField j "data" with
      | some .null => false
      | some _ => true
      | none => false
    else false

/-- The `data` payload of a message (`undefined` collapsed to `none`). -/
def stateData : InboundMessage → Option Json
  | .invalid => none
  | .valid j => getField j "data"

/-- The `data.frame` payload of a message, read with pure (non-throwing)
access. -/
def videoPayload : InboundMessage → Option Json
  | .invalid => none
  | .valid j => (getField j "data").bind (fun d => getField d "frame")

/-- Shape of one delivery of a valid (parsed) message, with the tag and data
reads kept abstract. -/
theorem handleMessage_valid (st : HookState) (j : Json) :
    handleMessage st (.valid j) =
      match typeTag j with
      | some s =>
        if s = "state_update" then { st with droneState := getField j "data" }
        else if s = "video_frame" then
          match jsAccessOpt (getField j "data") "frame" with
          | .error _ => st
          | .ok f => { st with videoFrame := f }
        else st
      | none => st := by
  cases j with
  | null => rfl
  | bool b => rfl
  | num n => rfl
  | str s => rfl
  | arr xs => rfl
  | obj fields =>
    simp only [handleMessage, onmessageBody, jsAccess, typeTag, getField]
    cases lookupField fields "type" with
    | none => rfl
    | some v =>
      cases v with
      | str s =>
        by_cases hs : s = "state_update"
        · simp [hs]
        · by_cases hv : s = "video_frame"
          · simp only [hs, hv, if_true, if_false, if_neg, if_pos]
            cases jsAccessOpt (lookupField fields "data") "frame" <;> rfl
          · simp [hs, hv]
      | null => rfl
      | bool b => rfl
      | num n => rfl
      | arr xs => rfl
      | obj gs => rfl

/-- Master characterization of one delivery: a `state_update` message replaces
the snapshot with its `data` payload; a `video_frame` message with a present,
non-null `data` payload replaces the frame with `data.frame`; every other
message — invalid JSON, unrecognized or missing tag, or a `video_frame`
message whose `data.data.frame` access throws — leaves the state exactly as it
was. -/
theorem handleMessage_eq (st : HookState) (m : InboundMessage) :
    handleMessage st m =
      if isStateUpdateMsg m then { st with droneState := stateData m }
      else if isEffVideoMsg m then { st with videoFrame := videoPayload m }
      else st := by
  cases m with
  | invalid => rfl
  | valid j =>
    rw [handleMessage_valid]
    simp only [isStateUpdateMsg, isEffVideoMsg, stateData, videoPayload]
    cases hty : typeTag j with
    | none => simp [hty]
    | some s =>
      by_cases hs : s = "state_update"
      · subst hs; simp [hty]
      · by_cases hv : s = "video_frame"
        · subst hv
          simp only [hty, hs, if_neg, if_pos, if_true, if_false]
          cases hd : getField j "data" with
          | none => simp [jsAccessOpt, hd, hs]
          | some d =>
            cases d with
            | null => simp [jsAccessOpt, jsAccess, hd, hs]
            | bool b => simp [jsAccessOpt, jsAccess, hd, hs, getField]
            | num n => simp [jsAccessOpt, jsAccess, hd, hs, getField]
            | str t => simp [jsAccessOpt, jsAccess, hd, hs, getField]
            | arr xs => simp [jsAccessOpt, jsAccess, hd, hs, getField]
            | obj gs => simp [jsAccessOpt, jsAccess, hd, hs, getField]
        · simp [hty, hs, hv]

/-- The `onmessage` handler never touches the connection flag. -/
theorem handleMessage_isConnected (st : HookState) (m : InboundMessage) :
    (handleMessage st m).isConnected = st.isConnected := by
  rw [handleMessage_eq]; split <;> [rfl; split <;> rfl]

/-- The `onmessage` handler never touches the socket handle. -/
theorem handleMessage_ws (st : HookState) (m : InboundMessage) :
    (handleMessage st m).ws = st.ws := by
  rw [handleMessage_eq]; split <;> [rfl; split <;> rfl]

/-- Effect of one delivery on the snapshot slot alone. -/
theorem droneState_handleMessage (st : HookState) (m : InboundMessage) :
    (handleMessage st m).droneState =
      if isStateUpdateMsg m then stateData m else st.droneState := by
  rw [handleMessage_eq]; split <;> [rfl; split <;> rfl]

/-- A message cannot carry both recognized tags. -/
theorem not_eff_of_stateUpdate (m : InboundMessage) :
    isStateUpdateMsg m = true → isEffVideoMsg m = false := by
  cases m with
  | invalid => simp [isStateUpdateMsg]
  | valid j =>
    simp only [isStateUpdateMsg, isEffVideoMsg]
    by_cases h : typeTag j = some "state_update" <;> simp [h]

/-- Effect of one delivery on the frame slot alone. -/
theorem videoFrame_handleMessage (st : HookState) (m : InboundMessage) :
    (handleMessage st m).videoFrame =
      if isEffVideoMsg m then videoPayload m else st.videoFrame := by
  rw [handleMessage_eq]
  by_cases hs : isStateUpdateMsg m
  · simp [hs, not_eff_of_stateUpdate m hs]
  · simp only [hs, if_false, Bool.false_eq_true, if_neg, not_false_iff]
    split <;> rfl

/-- After a message sequence, the snapshot slot holds the `data` payload of
the last `state_update` message, or its prior value when none arrived. -/
theorem processMessages_droneState (msgs : List InboundMessage) (st : HookState) :
    (processMessages st msgs).droneState =
      match (msgs.filter isStateUpdateMsg).getLast? with
      | some m => stateData m
      | none => st.droneState := by
  induction msgs using List.reverseRecOn with
  | nil => rfl
  | append_singleton l m ih =>
    show (List.foldl handleMessage st (l ++ [m])).droneState = _
    rw [List.foldl_append, List.foldl_cons, List.foldl_nil, droneState_handleMessage]
    by_cases hp : isStateUpdateMsg m
    · simp [hp, List.filter_append, List.getLast?_concat]
    · simp only [List.filter_append, List.filter_cons, hp, Bool.false_eq_true, if_neg,
        not_false_iff, List.filter_nil, List.append_nil, if_false]
      exact ih

/-- After a message sequence, the frame slot holds the `data.frame` payload of
the last frame-updating `video_frame` message, or its prior value. -/
theorem processMessages_videoFrame (msgs : List InboundMessage) (st : HookState) :
    (processMessages st msgs).videoFrame =
      match (msgs.filter isEffVideoMsg).getLast? with
      | some m => videoPayload m
      | none => st.videoFrame := by
  induction msgs using List.reverseRecOn with
  | nil => rfl
  | append_singleton l m ih =>
    show (List.foldl handleMessage st (l ++ [m])).videoFrame = _
    rw [List.foldl_append, List.foldl_cons, List.foldl_nil, videoFrame_handleMessage]
    by_cases hp : isEffVideoMsg m
    · simp [hp, List.filter_append, List.getLast?_concat]
    · simp only [List.filter_append, List.filter_cons, hp, Bool.false_eq_true, if_neg,
        not_false_iff, List.filter_nil, List.append_nil, if_false]
      exact ih

/-- C1: for every sequence of inbound WebSocket messages, after processing
the sequence the current TelemetrySnapshot (`droneState`) equals the `data`
payload of the most recently received `state_update` message — each new
snapshot fully replaces the previous one, with no field-level merging — and
it is absent (`none`) when no `state_update` message has been received. -/
theorem c1_snapshot_is_last_state_update (msgs : List InboundMessage) :
    (processMessages initialHookState msgs).droneState =
      match (msgs.filter isStateUpdateMsg).getLast? with
      | some m => stateData m
      | none => none :=
  processMessages_droneState msgs initialHookState

/-- Stated from the spec's words (testable property 2 together with §4.1):
"the current VideoFrame equals the `data.frame` field of the last
`video_frame` message received (null if none)" — the `data.frame` read is
taken as a plain field lookup, absent fields giving null. This is the claim's
prediction, to be compared against the embedded handler. -/
def specVideoFrame (msgs : List InboundMessage) : Option Json :=
  match (msgs.filter isVideoFrameMsg).getLast? with
  | some m => videoPayload m
  | none => none

/-- A well-formed frame message carrying frame `"a"`. -/
def frameMsgA : InboundMessage :=
  .valid (.obj [("type", .str "video_frame"), ("data", .obj [("frame", .str "a")])])

/-- A `video_frame` message with no `data` payload: the handler evaluates
`data.data.frame`, which throws, so the previous frame survives. -/
def frameMsgNoData : InboundMessage :=
  .valid (.obj [("type", .str "video_frame")])

/-- C2, counterexample: after the sequence [frame "a", video_frame with no
data payload], the code still retains the earlier frame `"a"` — the earlier
frame stays observable — while the claim as stated predicts the last
`video_frame` message's (absent) `data.frame`, i.e. no frame. -/
theorem c2_counterexample :
    (processMessages initialHookState [frameMsgA, frameMsgNoData]).videoFrame
        = some (Json.str "a")
      ∧ specVideoFrame [frameMsgA, frameMsgNoData] = none
      ∧ (processMessages initialHookState [frameMsgA, frameMsgNoData]).videoFrame
          ≠ specVideoFrame [frameMsgA, frameMsgNoData] := by
  refine ⟨rfl, rfl, ?_⟩
  intro h
  rw [show (processMessages initialHookState [frameMsgA, frameMsgNoData]).videoFrame
        = some (Json.str "a") from rfl,
      show specVideoFrame [frameMsgA, frameMsgNoData] = none from rfl] at h
  exact Option.noConfusion h

/-- C2, amended: only the most recent `video_frame` message whose `data`
payload is present and non-null updates the retained frame — after
processing, the current VideoFrame equals that message's `data.frame`
(absent when it has no `frame` field), or is absent when no such message
arrived; a `video_frame` message whose `data` payload is missing or null
throws inside the handler before `setVideoFrame` runs and leaves the
previously retained frame unchanged, so an earlier frame can stay
observable past it. -/
theorem c2_amended_frame_is_last_effective_video_frame (msgs : List InboundMessage) :
    (processMessages initialHookState msgs).videoFrame =
      match (msgs.filter isEffVideoMsg).getLast? with
      | some m => videoPayload m
      | none => none :=
  processMessages_videoFrame msgs initialHookState

/-- C3: a message that is valid JSON but whose `type` tag is neither
`state_update` nor `video_frame` leaves the whole hook state — in particular
both the TelemetrySnapshot and the VideoFrame — unchanged; unrecognized tags
are ignored, not an error. -/
theorem c3_unrecognized_tag_ignored (st : HookState) (j : Json)
    (hs : typeTag j ≠ some "state_update") (hv : typeTag j ≠ some "video_frame") :
    handleMessage st (.valid j) = st := by
  rw [handleMessage_eq]
  simp [isStateUpdateMsg, isEffVideoMsg, hs, hv]

theorem c3_unrecognized_tag_ignored_witness :
    handleMessage initialHookState (.valid (.obj [("type", .str "ping")]))
      = initialHookState :=
  c3_unrecognized_tag_ignored initialHookState (.obj [("type", .str "ping")])
    (by decide) (by decide)

/-- C4: a malformed inbound payload — text `JSON.parse` rejects, or a parsed
value with no `type` field — is a recoverable decode failure: delivering it
returns the state exactly as it was (snapshot, frame and connection flag
untouched), and the channel-level delivery function never propagates a
failure to its caller. -/
theorem c4_malformed_payload_recoverable (st : HookState) (msg : InboundMessage)
    (h : msg = .invalid ∨ ∃ j, msg = .valid j ∧ getField j "type" = none) :
    handleMessage st msg = st := by
  rcases h with h | ⟨j, rfl, hj⟩
  · subst h; rfl
  · rw [handleMessage_eq]
    simp [isStateUpdateMsg, isEffVideoMsg, typeTag, hj]

theorem c4_malformed_payload_recoverable_witness :
    handleMessage initialHookState .invalid = initialHookState
      ∧ handleMessage initialHookState (.valid (.obj [("battery", .num 87)]))
          = initialHookState :=
  ⟨c4_malformed_payload_recoverable initialHookState .invalid (Or.inl rfl),
   c4_malformed_payload_recoverable initialHookState
     (.valid (.obj [("battery", .num 87)]))
     (Or.inr ⟨.obj [("battery", .num 87)], rfl, rfl⟩)⟩

/-- C10: the two recognized tags write to disjoint slots — a `state_update`
message leaves the VideoFrame and the connection flag unchanged, a
`video_frame` message leaves the TelemetrySnapshot and the connection flag
unchanged (and no message ever touches the connection flag or the socket
handle). -/
theorem c10_disjoint_slots (st : HookState) (msg : InboundMessage) :
    (handleMessage st msg).isConnected = st.isConnected
      ∧ (handleMessage st msg).ws = st.ws
      ∧ (isStateUpdateMsg msg = true →
          (handleMessage st msg).videoFrame = st.videoFrame)
      ∧ (isVideoFrameMsg msg = true →
          (handleMessage st msg).droneState = st.droneState) := by
  refine ⟨handleMessage_isConnected st msg, handleMessage_ws st msg, ?_, ?_⟩
  · intro h
    rw [videoFrame_handleMessage, not_eff_of_stateUpdate msg h]
    rfl
  · intro h
    rw [droneState_handleMessage]
    have : isStateUpdateMsg msg = false := by
      cases msg with
      | invalid => rfl
      | valid j =>
        simp only [isVideoFrameMsg] at h
        simp only [isStateUpdateMsg]
        by_cases ht : typeTag j = some "video_frame"
        · simp [ht]
        · simp [ht] at h
    simp [this]

theorem c10_disjoint_slots_witness :
    (handleMessage initialHookState
        (.valid (.obj [("type", .str "state_update"), ("data", .obj [])]))).videoFrame
      = initialHookState.videoFrame
    ∧ (handleMessage initialHookState frameMsgA).droneState
      = initialHookState.droneState :=
  ⟨(c10_disjoint_slots initialHookState
      (.valid (.obj [("type", .str "state_update"), ("data", .obj [])]))).2.2.1
      (by decide),
   (c10_disjoint_slots initialHookState frameMsgA).2.2.2 (by decide)⟩

/-! ## Socket lifecycle

Each call to `connect` constructs a fresh `WebSocket` and stores it with
`setWs`; the `useEffect` keyed on `[ws]` runs the previous effect's cleanup —
`if (ws) ws.close()` on the *previous* handle — whenever the stored handle
changes. Every socket ever constructed by `connect` carries the same
`onopen`/`onmessage`/`onclose` handlers, which keep firing for a replaced
socket until it finishes closing. Sockets are identified by allocation order;
their transport status is tracked per id. The event-driven host is modelled by
`step`: each entry runs one browser task (a user call including the React
commit it triggers, or one socket event) to completion. -/

/-- Transport status of one socket, following the WebSocket readyState. An
unallocated id is treated as CLOSED. -/
inductive SocketStatus where
  | CONNECTING
  | OPEN
  | CLOSING
  | CLOSED
deriving DecidableEq

/-- Effect of calling `close()` on a socket in the given status: a live socket
starts closing (the close *event* fires later); closing or closed sockets are
unaffected. -/
def SocketStatus.shut : SocketStatus → SocketStatus
  | .CONNECTING => .CLOSING
  | .OPEN => .CLOSING
  | .CLOSING => .CLOSING
  | .CLOSED => .CLOSED

/-- A socket that can no longer deliver opens or messages. -/
def SocketStatus.isShut : SocketStatus → Bool
  | .CLOSING => true
  | .CLOSED => true
  | _ => false

/-- The world of sockets: how many have been allocated, and each one's
status. -/
structure SockWorld where
  nextId : Nat
  status : Nat → SocketStatus

/-- Point update of a socket's status. -/
def updStatus (f : Nat → SocketStatus) (i : Nat) (v : SocketStatus) :
    Nat → SocketStatus :=
  fun n => if n = i then v else f n

/-- Call `close()` on socket `i`. -/
def closeSock (w : SockWorld) (i : Nat) : SockWorld :=
  { w with status := updStatus w.status i (w.status i).shut }

/-- Full state: the hook's four `useState` slots plus the socket world. -/
structure SysState where
  hook : HookState
  socks : SockWorld

def initialSysState : SysState :=
  { hook := initialHookState, socks := { nextId := 0, status := fun _ => .CLOSED } }

/-- One browser task touching the hook. -/
inductive HookEvent where
  | connectCall
  | disconnectCall
  | openEvt (sid : Nat)
  | closeEvt (sid : Nat)
  | msgEvt (sid : Nat) (msg : InboundMessage)

/-- Is this event a socket `open` event? -/
def HookEvent.isOpenEvt : HookEvent → Bool
  | .openEvt _ => true
  | _ => false

/-- Is this event a socket `close` event? -/
def HookEvent.isCloseEvt : HookEvent → Bool
  | .closeEvt _ => true
  | _ => false

/-- One step of the lifecycle:

* `connectCall` — `connect()`: a fresh socket is constructed (handshake
  starts), `setWs` stores it, and the committed `[ws]` effect cleanup closes
  the previously stored socket if there was one.
* `disconnectCall` — `disconnect()`: `if (ws) { ws.close(); setWs(null); }`
  (the `[ws]` cleanup then closes the same, already-closing socket again — a
  no-op). Nothing happens without a stored handle.
* `openEvt sid` — the handshake of a still-connecting socket completes:
  `onopen` runs `setIsConnected(true)`.
* `closeEvt sid` — a not-yet-closed socket finishes closing (client-initiated
  or remote): `onclose` runs `setIsConnected(false)`.
* `msgEvt sid msg` — an open socket delivers a message to its `onmessage`.

Open, close and message handlers are those installed by `connect` on *that*
socket, so they fire whether or not the socket is still the stored one. -/
def step (st : SysState) : HookEvent → SysState
  | .connectCall =>
    let newId := st.socks.nextId
    let socks1 : SockWorld :=
      { nextId := newId + 1, status := updStatus st.socks.status newId .CONNECTING }
    let socks2 :=
      match st.hook.ws with
      | some old => closeSock socks1 old
      | none => socks1
    { hook := { st.hook with ws := some newId }, socks := socks2 }
  | .disconnectCall =>
    match st.hook.ws with
    | some sid => { hook := { st.hook with ws := none }, socks := closeSock st.socks sid }
    | none => st
  | .openEvt sid =>
    if st.socks.status sid = .CONNECTING then
      { hook := { st.hook with isConnected := true },
        socks := { st.socks with status := updStatus st.socks.status sid .OPEN } }
    else st
  | .closeEvt sid =>
    if st.socks.status sid = .CLOSED then st
    else
      { hook := { st.hook with isConnected := false },
        socks := { st.socks with status := updStatus st.socks.status sid .CLOSED } }
  | .msgEvt sid msg =>
    if st.socks.status sid = .OPEN then
      { st with hook := handleMessage st.hook msg }
    else st

/-- Run a sequence of browser tasks from the initial state. -/
def runEvents (evts : List HookEvent) : SysState :=
  evts.foldl step initialSysState

/-- `close()` always leaves a socket unable to open or deliver. -/
theorem shut_isShut (s : SocketStatus) : s.shut.isShut = true := by
  cases s <;> rfl

/-- Reachability invariant: every socket other than the currently stored one
is closing or closed, and the stored handle is an allocated id. -/
def Inv (st : SysState) : Prop :=
  (∀ sid, st.hook.ws ≠ some sid → (st.socks.status sid).isShut = true)
  ∧ (∀ sid, st.hook.ws = some sid → sid < st.socks.nextId)

theorem inv_initial : Inv initialSysState :=
  ⟨fun _ _ => rfl, fun _ h => Option.noConfusion h⟩

theorem inv_step (st : SysState) (e : HookEvent) (h : Inv st) : Inv (step st e) := by
  obtain ⟨h1, h2⟩ := h
  cases e with
  | connectCall =>
    cases hws : st.hook.ws with
    | none =>
      refine ⟨fun sid hsid => ?_, fun sid hsid => ?_⟩
      · have hne : sid ≠ st.socks.nextId := by
          intro hEq; exact hsid (by simp [step, hEq])
        simpa [step, hws, updStatus, hne] using h1 sid (by simp [hws])
      · have hEq : st.socks.nextId = sid := by
          simpa [step, hws] using hsid
        subst hEq
        simp [step, hws]
    | some old =>
      have hold : old < st.socks.nextId := h2 old hws
      refine ⟨fun sid hsid => ?_, fun sid hsid => ?_⟩
      · have hne : sid ≠ st.socks.nextId := by
          intro hEq; exact hsid (by simp [step, hEq])
        by_cases hso : sid = old
        · subst hso
          simp [step, hws, closeSock, updStatus, hne, shut_isShut]
        · have := h1 sid (by
            rw [hws]; exact fun hEq => hso (Option.some.inj hEq).symm)
          simpa [step, hws, closeSock, updStatus, hne, hso] using this
      · have hEq : st.socks.nextId = sid := by
          simpa [step, hws] using hsid
        subst hEq
        simp [step, hws, closeSock]
  | disconnectCall =>
    cases hws : st.hook.ws with
    | none =>
      simpa [step, hws] using ⟨h1, h2⟩
    | some old =>
      refine ⟨fun sid hsid => ?_, fun sid hsid => ?_⟩
      · by_cases hso : sid = old
        · subst hso; simp [step, hws, closeSock, updStatus, shut_isShut]
        · have := h1 sid (by
            rw [hws]; intro hEq; injection hEq with hEq; exact hso hEq.symm)
          simpa [step, hws, closeSock, updStatus, hso] using this
      · simp [step, hws] at hsid
  | openEvt sid0 =>
    by_cases hg : st.socks.status sid0 = .CONNECTING
    · have hcur : st.hook.ws = some sid0 := by
        by_contra hne
        have := h1 sid0 hne
        rw [hg] at this
        exact absurd this (by simp [SocketStatus.isShut])
      refine ⟨fun sid hsid => ?_, fun sid hsid => ?_⟩
      · have hs0 : sid ≠ sid0 := by
          intro hEq; subst hEq
          exact hsid (by simpa [step, hg] using hcur)
        have := h1 sid (by simpa [step, hg, hcur] using hsid)
        simpa [step, hg, updStatus, hs0] using this
      · have := h2 sid (by simpa [step, hg] using hsid)
        simpa [step, hg] using this
    · simpa [step, hg] using ⟨h1, h2⟩
  | closeEvt sid0 =>
    by_cases hg : st.socks.status sid0 = .CLOSED
    · simpa [step, hg] using ⟨h1, h2⟩
    · refine ⟨fun sid hsid => ?_, fun sid hsid => ?_⟩
      · by_cases hs0 : sid = sid0
        · subst hs0; simp [step, hg, updStatus]; rfl
        · have := h1 sid (by simpa [step, hg] using hsid)
          simpa [step, hg, updStatus, hs0] using this
      · have := h2 sid (by simpa [step, hg] using hsid)
        simpa [step, hg] using this
  | msgEvt sid0 msg =>
    by_cases hg : st.socks.status sid0 = .OPEN
    · refine ⟨fun sid hsid => ?_, fun sid hsid => ?_⟩
      · have := h1 sid (by simpa [step, hg, handleMessage_ws] using hsid)
        simpa [step, hg] using this
      · have := h2 sid (by simpa [step, hg, handleMessage_ws] using hsid)
        simpa [step, hg] using this
    · simpa [step, hg] using ⟨h1, h2⟩

theorem inv_foldl (evts : List HookEvent) :
    ∀ st, Inv st → Inv (evts.foldl step st) := by
  induction evts with
  | nil => exact fun st h => h
  | cons e es ih => exact fun st h => ih (step st e) (inv_step st e h)

theorem inv_run (evts : List HookEvent) : Inv (runEvents evts) :=
  inv_foldl evts initialSysState inv_initial


/-- C7, counterexample: open twice and let both handshakes complete — the
run `connect(); open₀; connect(); open₁` ends connected with socket 1 owned.
But the close event of the *replaced* socket 0 (pending since the `[ws]`
cleanup closed it) then fires its `onclose`, driving the published
`isConnected` to `false` while the owned socket 1 is still OPEN: after the
second `open()` the published state is *not* driven only by the new
connection, refuting the claim as stated. -/
theorem c7_counterexample :
    (runEvents [.connectCall, .openEvt 0, .connectCall, .openEvt 1]).hook.isConnected
        = true
      ∧ (runEvents [.connectCall, .openEvt 0, .connectCall, .openEvt 1,
          .closeEvt 0]).hook.ws = some 1
      ∧ (runEvents [.connectCall, .openEvt 0, .connectCall, .openEvt 1,
          .closeEvt 0]).socks.status 1 = .OPEN
      ∧ (runEvents [.connectCall, .openEvt 0, .connectCall, .openEvt 1,
          .closeEvt 0]).hook.isConnected = false := by
  refine ⟨rfl, rfl, ?_, rfl⟩
  decide

/-- C7, amended: `open()` while already open replaces the connection — after
any event sequence every socket other than the one currently owned (the hook
owns at most one handle, its single `ws` slot) is closing or closed, so no
two live connections are ever left; the replaced socket's pending close
event, however, still fires its handler and can set `isConnected` to false
after the new connection opened, so the published state is not driven only by
the new connection. -/
theorem c7_amended_replace_leaves_one_live (evts : List HookEvent) (sid : Nat)
    (h : (runEvents evts).hook.ws ≠ some sid) :
    ((runEvents evts).socks.status sid).isShut = true :=
  (inv_run evts).1 sid h

theorem c7_amended_replace_leaves_one_live_witness :
    ((runEvents [.connectCall, .connectCall]).socks.status 0).isShut = true :=
  c7_amended_replace_leaves_one_live [.connectCall, .connectCall] 0 (by decide)

/-- C8: the published connection flag only ever changes through a socket
event handler — it flips to `true` only when some socket's `open` event
fires, and to `false` only when some socket's `close` event fires; `connect`,
`disconnect` (before the close event arrives) and message deliveries leave
it untouched. -/
theorem c8_connection_flag_transitions (st : SysState) (e : HookEvent)
    (h : (step st e).hook.isConnected ≠ st.hook.isConnected) :
    ((step st e).hook.isConnected = true ∧ e.isOpenEvt = true)
      ∨ ((step st e).hook.isConnected = false ∧ e.isCloseEvt = true) := by
  cases e with
  | connectCall => exact absurd rfl h
  | disconnectCall =>
    cases hws : st.hook.ws <;> simp [step, hws] at h
  | openEvt sid =>
    by_cases hg : st.socks.status sid = .CONNECTING
    · exact Or.inl ⟨by simp [step, hg], rfl⟩
    · simp [step, hg] at h
  | closeEvt sid =>
    by_cases hg : st.socks.status sid = .CLOSED
    · simp [step, hg] at h
    · exact Or.inr ⟨by simp [step, hg], rfl⟩
  | msgEvt sid msg =>
    by_cases hg : st.socks.status sid = .OPEN
    · rw [show (step st (.msgEvt sid msg)).hook = handleMessage st.hook msg by
          simp [step, hg],
        handleMessage_isConnected] at h
      exact absurd rfl h
    · simp [step, hg] at h

theorem c8_connection_flag_transitions_witness :
    ((step (runEvents [HookEvent.connectCall]) (.openEvt 0)).hook.isConnected = true
        ∧ (HookEvent.openEvt 0).isOpenEvt = true)
      ∨ ((step (runEvents [HookEvent.connectCall]) (.openEvt 0)).hook.isConnected = false
        ∧ (HookEvent.openEvt 0).isCloseEvt = true) :=
  c8_connection_flag_transitions (runEvents [HookEvent.connectCall]) (.openEvt 0)
    (by decide)

/-- C9: `disconnect()` with a stored connection calls `close()` on exactly
that socket and clears the handle, changing nothing else (connection flag,
snapshot, frame, socket allocation and every other socket's status are
untouched); without a stored connection it is a complete no-op. -/
theorem c9_disconnect_closes_or_noop (st : SysState) :
    (st.hook.ws = none → step st .disconnectCall = st)
      ∧ ∀ sid, st.hook.ws = some sid →
          (step st .disconnectCall).hook.ws = none
          ∧ (step st .disconnectCall).socks.status sid = (st.socks.status sid).shut
          ∧ (step st .disconnectCall).hook.isConnected = st.hook.isConnected
          ∧ (step st .disconnectCall).hook.droneState = st.hook.droneState
          ∧ (step st .disconnectCall).hook.videoFrame = st.hook.videoFrame
          ∧ (step st .disconnectCall).socks.nextId = st.socks.nextId
          ∧ ∀ sid2, sid2 ≠ sid →
              (step st .disconnectCall).socks.status sid2 = st.socks.status sid2 := by
  constructor
  · intro h; simp [step, h]
  · intro sid h
    refine ⟨by simp [step, h], by simp [step, h, closeSock, updStatus],
      by simp [step, h], by simp [step, h], by simp [step, h],
      by simp [step, h, closeSock], fun sid2 hne => by
        simp [step, h, closeSock, updStatus, hne]⟩

theorem c9_disconnect_closes_or_noop_witness :
    step initialSysState .disconnectCall = initialSysState
      ∧ (step (runEvents [HookEvent.connectCall]) .disconnectCall).hook.ws = none :=
  ⟨(c9_disconnect_closes_or_noop initialSysState).1 rfl,
   ((c9_disconnect_closes_or_noop (runEvents [HookEvent.connectCall])).2 0 rfl).1⟩

/-! ## Command dispatcher

`useDroneCommands` (hooks/useDroneCommands.ts): `fetchWithBody` issues one
POST to `API_BASE + endpoint` with the JSON-serialized body, throws
`Error('Command failed')` when `response.ok` is false, and otherwise resolves
with the parsed response body. The nine exported operations are thin wrappers
fixing the endpoint and body; the `useMutation` wrapping adds no retry. The
network is modelled as a responder function; per the interface contract the
backend answers with a JSON body, so a response carries its parsed body
directly. An execution records the list of issued requests alongside the
resolved/rejected outcome. -/

/-- One HTTP request as built by `fetch` inside `fetchWithBody`: the target
URL, the method, and the value serialized into the request body by
`JSON.stringify`. -/
structure HttpRequest where
  url : String
  method : String
  body : Json

/-- An HTTP response: its status code and its (JSON) body. -/
structure HttpResponse where
  status : Nat
  body : Json

/-- `response.ok`: status in the inclusive range 200-299. -/
def respOk (r : HttpResponse) : Bool :=
  200 ≤ r.status && r.status < 300

/-- The environment answering requests. -/
def Responder := HttpRequest → HttpResponse

/-- A network computation: given the environment, the requests issued (in
order) and the outcome — resolved value or rejection message. -/
structure FetchM (α : Type) where
  run : Responder → List HttpRequest × Except String α

/-- The backend base URL. -/
def API_BASE : String := "http://localhost:8000"

/-- hooks/useDroneCommands.ts, `fetchWithBody`: one POST to
`API_BASE + endpoint` carrying `body`; on a non-ok status, throw
`Error('Command failed')`; otherwise resolve with the response body. -/
def fetchWithBody (endpoint : String) (body : Json) : FetchM Json :=
  ⟨fun respond =>
    let req : HttpRequest := { url := API_BASE ++ endpoint, method := "POST", body := body }
    let response := respond req
    if respOk response then ([req], .ok response.body)
    else ([req], .error "Command failed")⟩

/-- The nine operations exported by `useDroneCommands`, with their
parameters. -/
inductive Command where
  | connect
  | disconnect
  | takeoff
  | land
  | move (direction : String) (distance : Int)
  | rotate (direction : String) (degrees : Int)
  | flip (direction : String)
  | setSpeed (speed : Int)
  | toggleTracking (enabled : Bool)

/-- The fixed endpoint each operation posts to. -/
def commandEndpoint : Command → String
  | .connect => "/connect"
  | .disconnect => "/disconnect"
  | .takeoff => "/takeoff"
  | .land => "/land"
  | .move _ _ => "/move"
  | .rotate _ _ => "/rotate"
  | .flip _ => "/flip"
  | .setSpeed _ => "/speed"
  | .toggleTracking _ => "/track_object"

/-- The body each operation sends: the parameter record when parameters
exist, `fetchWithBody`'s default `{}` otherwise. -/
def commandBody : Command → Json
  | .connect => .obj []
  | .disconnect => .obj []
  | .takeoff => .obj []
  | .land => .obj []
  | .move direction distance =>
      .obj [("direction", .str direction), ("distance", .num distance)]
  | .rotate direction degrees =>
      .obj [("direction", .str direction), ("degrees", .num degrees)]
  | .flip direction => .obj [("direction", .str direction)]
  | .setSpeed speed => .obj [("speed", .num speed)]
  | .toggleTracking enabled => .obj [("enabled", .bool enabled)]

/-- Dispatch one command, exactly as the wrappers in `useDroneCommands` do. -/
def runCommand (c : Command) : FetchM Json :=
  fetchWithBody (commandEndpoint c) (commandBody c)

/-- The single request a command issues. -/
def commandRequest (c : Command) : HttpRequest :=
  { url := API_BASE ++ commandEndpoint c, method := "POST", body := commandBody c }

/-- Full behavior of `fetchWithBody`: one request on the wire, and an
outcome decided by `response.ok` alone. -/
theorem fetchWithBody_run (endpoint : String) (body : Json) (respond : Responder) :
    (fetchWithBody endpoint body).run respond =
      ([{ url := API_BASE ++ endpoint, method := "POST", body := body }],
        if respOk (respond { url := API_BASE ++ endpoint, method := "POST", body := body })
        then .ok (respond { url := API_BASE ++ endpoint, method := "POST", body := body }).body
        else .error "Command failed") := by
  rw [fetchWithBody]
  by_cases h : respOk (respond { url := API_BASE ++ endpoint, method := "POST", body := body }) = true
  · simp [h]
  · rw [Bool.not_eq_true] at h
    simp [h]

/-- C5: every command dispatcher operation issues exactly one POST to its
fixed endpoint (no retry, whatever the response), resolves with the parsed
response body exactly when the status is 2xx, and fails with the single
uniform `"Command failed"` error — no structured error code — exactly when
the status is not 2xx. -/
theorem c5_uniform_command_outcome (c : Command) (respond : Responder) :
    ((runCommand c).run respond).1 = [commandRequest c]
      ∧ (((runCommand c).run respond).2 = .ok (respond (commandRequest c)).body
          ↔ respOk (respond (commandRequest c)) = true)
      ∧ (((runCommand c).run respond).2 = .error "Command failed"
          ↔ respOk (respond (commandRequest c)) = false) := by
  have hreq : commandRequest c
      = { url := API_BASE ++ commandEndpoint c, method := "POST",
          body := commandBody c } := rfl
  have hrun := fetchWithBody_run (commandEndpoint c) (commandBody c) respond
  rw [← hreq] at hrun
  rw [runCommand, hrun]
  by_cases h : respOk (respond (commandRequest c)) = true
  · simp [h]
  · rw [Bool.not_eq_true] at h
    simp [h]

/-- C6: each `move(direction, distance)` call issues exactly one POST — to
`/move`, with body `{direction, distance}` — and performs no retry whatever
the response status; in particular `move("forward", 30)` issues exactly one
POST to `/move` with body `{direction: "forward", distance: 30}`. -/
theorem c6_move_single_post (direction : String) (distance : Int)
    (respond : Responder) :
    ((runCommand (.move direction distance)).run respond).1
        = [{ url := "http://localhost:8000/move", method := "POST",
             body := .obj [("direction", .str direction),
                           ("distance", .num distance)] }]
      ∧ ((runCommand (.move "forward" 30)).run respond).1
        = [{ url := "http://localhost:8000/move", method := "POST",
             body := .obj [("direction", .str "forward"),
                           ("distance", .num 30)] }] := by
  constructor
  · rw [runCommand, fetchWithBody_run]
    rfl
  · rw [runCommand, fetchWithBody_run]
    rfl

end Tello
